import Mathlib

/-!
# Verification of the modem connectivity watchdog (`checkstatus_quect.py`)

This file gives a shallow embedding, in Lean, of the parts of the watchdog
script that the specification's claims are about:

* the signal-telemetry parser `get_signal_strength` (numeric-token
  extraction in the style of `re.findall(r'-?\d+\.?\d*', s)`, Python `int`
  and `float` conversion of the extracted tokens);
* the parallel connectivity check `check_connectivity_parallel`
  (completion-ordered fold over per-host outcomes with early exit);
* the racing AT-port detection `detect_at_port` (an interleaving semantics
  for the per-candidate threads sharing `found_flag` / `found_port`);
* the `fail_safe` routine (carrier-DNS reply parsing and the best-effort
  step sequence, including the zero-argument `netdiag_log()` call);
* the top-level `main` traversal, modelled as a function from an oracle of
  external outcomes to the generated event trace.

External I/O (serial exchanges, subprocess calls, name resolution) is
modelled by oracles: each fallible external step's outcome is an input to
the embedded function, and the embedding records what the script then does.
-/

set_option autoImplicit false

namespace CheckStatus

/-! ## Numeric token extraction, as in `re.findall(r'-?\d+\.?\d*', s)` -/

/-- Value of a (decimal) digit string, most significant digit first. -/
def digitsVal (l : List Char) : Nat :=
  l.foldl (fun a c => a * 10 + (c.toNat - 48)) 0

/-- Greedily take leading digits, returning them and the remainder. -/
def takeDigits (l : List Char) : List Char × List Char :=
  (l.takeWhile Char.isDigit, l.dropWhile Char.isDigit)

/-- Optional fractional tail `\.?\d*` at the head of the input. -/
def munchFrac : List Char → List Char × List Char
  | '.' :: r => ('.' :: r.takeWhile Char.isDigit, r.dropWhile Char.isDigit)
  | r => ([], r)

/-- Try to match `-?\d+\.?\d*` at the head of the input, returning the
matched token and the remaining characters. -/
def munchNum (l : List Char) : Option (List Char × List Char) :=
  match l with
  | '-' :: rest =>
    let (ds, r1) := takeDigits rest
    if ds.isEmpty then none
    else
      let (fr, r2) := munchFrac r1
      some ('-' :: (ds ++ fr), r2)
  | _ =>
    let (ds, r1) := takeDigits l
    if ds.isEmpty then none
    else
      let (fr, r2) := munchFrac r1
      some (ds ++ fr, r2)

/-- Fuelled scan collecting every non-overlapping, leftmost-first match of
`-?\d+\.?\d*`, exactly as `re.findall` does. -/
def findNumbersAux : Nat → List Char → List String
  | 0, _ => []
  | _ + 1, [] => []
  | fuel + 1, c :: rest =>
    match munchNum (c :: rest) with
    | some (tok, r) => String.mk tok :: findNumbersAux fuel r
    | none => findNumbersAux fuel rest

/-- All numeric tokens of a string: `re.findall(r'-?\d+\.?\d*', s)`. -/
def findNumbers (s : String) : List String :=
  findNumbersAux s.data.length s.data

/-! ## Python `int(...)` and `float(...)` on the extracted tokens -/

/-- Python `int(token)` on a token matched by `-?\d+\.?\d*`: succeeds only
when the token has no decimal point (e.g. `int("1.5")` raises
`ValueError`, modelled as `none`). -/
def pyIntOfToken (t : String) : Option Int :=
  match t.data with
  | '-' :: r =>
    if r.all Char.isDigit && !r.isEmpty then some (-(digitsVal r : Int)) else none
  | r =>
    if r.all Char.isDigit && !r.isEmpty then some ((digitsVal r : Int)) else none

/-- Python `float(token)` on a token matched by `-?\d+\.?\d*` (always
succeeds); the value is represented exactly as a rational. -/
def pyRatOfToken (t : String) : ℚ :=
  let (neg, ds) :=
    match t.data with
    | '-' :: r => (true, r)
    | r => (false, r)
  let ip := ds.takeWhile (fun c => c != '.')
  let rest := ds.dropWhile (fun c => c != '.')
  let fp := (rest.drop 1).takeWhile Char.isDigit
  let num : Int := ((digitsVal ip * 10 ^ fp.length + digitsVal fp : Nat) : Int)
  mkRat (if neg then -num else num) (10 ^ fp.length)

/-! ## Substring containment, as in Python's `needle in haystack` -/

/-- Python's `needle in haystack` on strings (substring containment). -/
def hasSubstring (needle : List Char) : List Char → Bool
  | [] => needle.isEmpty
  | c :: rest => List.isPrefixOf needle (c :: rest) || hasSubstring needle rest

/-! ## `get_signal_strength` -/

/-- Parsed signal report: RSRP, RSRQ, RSSI as Python ints, SINR as a
Python float (modelled exactly as a rational). -/
structure SignalReport where
  rsrp : Int
  rsrq : Int
  rssi : Int
  sinr : ℚ
  deriving DecidableEq, Repr

/-- Outcome of the body of `get_signal_strength` on a serial reply.  All
four outcomes are non-exceptional for the caller: `convError` is the
`ValueError` of an `int(...)` conversion, raised inside the function's
`try` block and caught by its own `except`. -/
inductive SigOutcome where
  | noMarker
  | tooFew
  | convError
  | report (r : SignalReport)
  deriving DecidableEq, Repr

/-- Conversion of the last four numeric tokens, as in the source:
`rsrp, rsrq, rssi, sinr = numbers[-4:]` then `int`/`int`/`int`/`float`. -/
def parseLastFour (tokens : List String) : SigOutcome :=
  match tokens with
  | [a, b, c, d] =>
    match pyIntOfToken a, pyIntOfToken b, pyIntOfToken c with
    | some x, some y, some z => SigOutcome.report ⟨x, y, z, pyRatOfToken d⟩
    | _, _, _ => SigOutcome.convError
  | _ => SigOutcome.convError

/-- The body of `get_signal_strength(port)` as a function of the decoded
serial reply: marker check `'+QENG:' in sig_resp`, token extraction, the
`len(numbers) < 4` guard, and conversion of `numbers[-4:]`. -/
def get_signal_strength (resp : String) : SigOutcome :=
  if hasSubstring "+QENG:".data resp.data then
    let numbers := findNumbers resp
    if numbers.length < 4 then SigOutcome.tooFew
    else parseLastFour (numbers.drop (numbers.length - 4))
  else SigOutcome.noMarker

/-- Log lines `get_signal_strength` can emit. -/
inductive SigLog where
  | parseIncomplete
  | unexpectedResponse
  | checkError
  | quality (r : SignalReport)
  deriving DecidableEq, Repr

/-- Exceptions of the Python runtime that the embedding tracks. -/
inductive PyErr where
  | typeError (msg : String)
  deriving DecidableEq, Repr

/-- The whole of `get_signal_strength` including its `try`/`except` and its
(absent) return value.  The oracle `env` is the serial exchange: `none`
means opening/reading the port raised (caught by the `except`), `some resp`
is the decoded reply.  The first component is what the function returns to
its caller; the second is the log output. -/
def get_signal_strength_exec (env : Option String) :
    Except PyErr (Option SignalReport) × List SigLog :=
  match env with
  | none => (Except.ok none, [SigLog.checkError])
  | some resp =>
    match get_signal_strength resp with
    | SigOutcome.noMarker => (Except.ok none, [SigLog.unexpectedResponse])
    | SigOutcome.tooFew => (Except.ok none, [SigLog.parseIncomplete])
    | SigOutcome.convError => (Except.ok none, [SigLog.checkError])
    | SigOutcome.report r => (Except.ok none, [SigLog.quality r])

/-! ## `check_connectivity_parallel`

Each submitted task is one `(kind, outcome)` pair; the input list is the
sequence of task results in *completion order* (`as_completed`).  An
`exc` outcome is a `future.result()` that raised (the `except ... continue`
branch); `success`/`failure` are the task's boolean return value. -/

inductive CheckKind where
  | dns
  | ping
  deriving DecidableEq, Repr

inductive TaskOutcome where
  | success
  | failure
  | exc
  deriving DecidableEq, Repr

/-- The `for future in as_completed(futures)` loop of
`check_connectivity_parallel`, with its two accumulator flags and the
early `return True` as soon as both are set. -/
def connLoop : Bool → Bool → List (CheckKind × TaskOutcome) → Bool
  | _, _, [] => false
  | d, p, (_, TaskOutcome.exc) :: rest => connLoop d p rest
  | d, p, (k, o) :: rest =>
    let res := o == TaskOutcome.success
    let d2 := d || (k == CheckKind.dns && res)
    let p2 := p || (k == CheckKind.ping && res)
    if d2 && p2 then true else connLoop d2 p2 rest

/-- `check_connectivity_parallel()` as a function of the completion-ordered
task results. -/
def check_connectivity_parallel (l : List (CheckKind × TaskOutcome)) : Bool :=
  connLoop false false l

/-- Spec-side predicate: the completed task set contains at least one
success of the given kind. -/
def hasSuccess (k : CheckKind) : List (CheckKind × TaskOutcome) → Bool
  | [] => false
  | (k', o) :: rest => (k' == k && o == TaskOutcome.success) || hasSuccess k rest

/-! ## Carrier-DNS parsing in `fail_safe`

The reply to `AT+CGCONTRDP=1` is split into lines; each line containing
`+CGCONTRDP:` is split on commas, each part stripped of whitespace and
then of double quotes; if the line has at least two parts and the last two
are non-empty they are taken as the DNS pair and the loop breaks. -/

/-- Strip matching characters from both ends of a character list, as
Python's `str.strip` family does. -/
def stripEnds (bad : Char → Bool) (l : List Char) : List Char :=
  ((l.dropWhile bad).reverse.dropWhile bad).reverse

/-- Python `p.strip().strip('"')` on one comma-separated field. -/
def stripField (s : String) : String :=
  String.mk (stripEnds (fun c => c == '"') (stripEnds Char.isWhitespace s.data))

/-- Split a character list on a separator character, keeping empty pieces,
as Python's `str.split(",")` does. -/
def splitOnChar (sep : Char) : List Char → List Char → List String
  | [], acc => [String.mk acc.reverse]
  | c :: rest, acc =>
    if c == sep then String.mk acc.reverse :: splitOnChar sep rest []
    else splitOnChar sep rest (c :: acc)

/-- `[p.strip().strip('"') for p in line.split(",")]`. -/
def lineParts (line : String) : List String :=
  (splitOnChar ',' line.data []).map stripField

/-- Python `str.splitlines()` for the line separators that occur in modem
replies (`\n`, `\r`, `\r\n`); no trailing empty line is produced. -/
def splitLinesAux : List Char → List Char → List String
  | [], acc => if acc.isEmpty then [] else [String.mk acc.reverse]
  | '\r' :: '\n' :: rest, acc => String.mk acc.reverse :: splitLinesAux rest []
  | '\r' :: rest, acc => String.mk acc.reverse :: splitLinesAux rest []
  | '\n' :: rest, acc => String.mk acc.reverse :: splitLinesAux rest []
  | c :: rest, acc => splitLinesAux rest (c :: acc)

/-- `response.splitlines()`. -/
def splitLinesPy (s : String) : List String :=
  splitLinesAux s.data []

/-- The last two fields of a part list (`parts[-2]`, `parts[-1]`), present
only when the list has at least two elements. -/
def lastTwo (parts : List String) : Option (String × String) :=
  match parts.reverse with
  | d2 :: d1 :: _ => some (d1, d2)
  | _ => none

/-- The `for line in response.splitlines()` loop of `fail_safe` that
accumulates `dns_servers`: first line containing `+CGCONTRDP:` with at
least two comma-split fields whose last two are both non-empty wins and
breaks the loop; every other line is skipped. -/
def dnsFromLines : List String → List String
  | [] => []
  | line :: rest =>
    if hasSubstring "+CGCONTRDP:".data line.data then
      match lastTwo (lineParts line) with
      | some (d1, d2) =>
        if d1 != "" && d2 != "" then [d1, d2] else dnsFromLines rest
      | none => dnsFromLines rest
    else dnsFromLines rest

/-- `dns_servers` at the end of the DNS-query block of `fail_safe`: `none`
for the reply oracle means the serial exchange raised (caught by the
block's `except`), leaving `dns_servers` empty. -/
def fail_safe_dns (reply : Option String) : List String :=
  match reply with
  | none => []
  | some r => dnsFromLines (splitLinesPy r)

/-- Provenance-tagged resolver choice made by `fail_safe`: carrier DNS
when `dns_servers` is non-empty, else the fixed Google fallback pair
(8.8.8.8 / 8.8.4.4). -/
inductive DnsChoice where
  | carrier (d1 d2 : String)
  | fallback
  deriving DecidableEq, Repr

/-- The `if dns_servers:` decision of `fail_safe`. -/
def dnsChoice (reply : Option String) : DnsChoice :=
  match fail_safe_dns reply with
  | d1 :: d2 :: _ => DnsChoice.carrier d1 d2
  | _ => DnsChoice.fallback

/-- Spec-side predicate on a single reply line: it contains the
`+CGCONTRDP:` marker and its last two comma-split, quote-stripped fields
exist and are both non-empty. -/
def goodDnsLine (line : String) : Bool :=
  hasSubstring "+CGCONTRDP:".data line.data &&
    (match lastTwo (lineParts line) with
     | some (d1, d2) => d1 != "" && d2 != ""
     | none => false)

/-! ## The `detect_at_port` probe race

One thread per candidate runs `test_port`.  Under the CPython interpreter
each statement of `test_port` is an atomic step, but distinct statements
of different threads interleave freely.  A thread that obtained `b"OK"`
executes, in order:

* pc 0 — the entry guard `if found_flag.is_set(): return` together with
  the serial probe (whose outcome `oks[tid]` decides whether the thread
  proceeds);
* pc 1 — the inner guard `if not found_flag.is_set():`;
* pc 2 — `found_flag.set()`;
* pc 3 — `found_port[0] = port`;
* pc 4 — done.

Candidates are identified with their index, which also stands for the
port value the thread would store. -/

structure RaceState where
  flag : Bool
  slot : Option Nat
  writes : Nat
  pcs : List Nat
  deriving DecidableEq, Repr

/-- Initial race state for the given candidate count. -/
def raceInit (n : Nat) : RaceState :=
  ⟨false, none, 0, List.replicate n 0⟩

/-- One atomic step of thread `tid`; `oks` records which candidates'
serial probes return an acknowledgment. -/
def raceStep (oks : List Bool) (s : RaceState) (tid : Nat) : RaceState :=
  match s.pcs.getD tid 4 with
  | 0 =>
    if s.flag then { s with pcs := s.pcs.set tid 4 }
    else if oks.getD tid false then { s with pcs := s.pcs.set tid 1 }
    else { s with pcs := s.pcs.set tid 4 }
  | 1 =>
    if s.flag then { s with pcs := s.pcs.set tid 4 }
    else { s with pcs := s.pcs.set tid 2 }
  | 2 => { s with flag := true, pcs := s.pcs.set tid 3 }
  | 3 => { s with slot := some tid, writes := s.writes + 1, pcs := s.pcs.set tid 4 }
  | _ => s

/-- Run the race under a schedule (the sequence of thread ids that take
the next atomic step). -/
def raceRun (oks : List Bool) (s : RaceState) (sched : List Nat) : RaceState :=
  sched.foldl (raceStep oks) s

/-- Modelled from the spec's invariant (§3 ProbeResult, §5): the same
per-thread program but with the guard-and-claim section (inner check, flag
set, slot write) executed as one atomic step, i.e. the serialized
compare-and-set the spec's design notes call for. -/
def raceStepSerialized (oks : List Bool) (s : RaceState) (tid : Nat) : RaceState :=
  match s.pcs.getD tid 4 with
  | 0 =>
    if s.flag then { s with pcs := s.pcs.set tid 4 }
    else if oks.getD tid false then { s with pcs := s.pcs.set tid 1 }
    else { s with pcs := s.pcs.set tid 4 }
  | 1 =>
    if s.flag then { s with pcs := s.pcs.set tid 4 }
    else { s with flag := true, slot := some tid, writes := s.writes + 1,
                  pcs := s.pcs.set tid 4 }
  | _ => s

/-- Run of the serialized race. -/
def raceRunSerialized (oks : List Bool) (s : RaceState) (sched : List Nat) : RaceState :=
  sched.foldl (raceStepSerialized oks) s

/-! ## Event-trace model of `fail_safe` and `main`

Each external effect of the script is recorded as an event.  The oracles
(`MainEnv`, `FsEnv`) fix the outcome of every fallible external step, and
the embedded functions record the trace the script then produces. -/

inductive Ev where
  | detectCall
  | delay02
  | signalRead (p : Nat)
  | connCheck (ok : Bool)
  | netdiagDump (iface : Option String)
  | restartServices
  | stopServices
  | usbnetSwitch (p : Nat)
  | waitReenum
  | dhcpRequest
  | dnsQuery
  | writeResolv (c : DnsChoice)
  | vpnStart
  | failSafeBegin (p : Nat)
  | rebootLog
  | onlineExit
  deriving DecidableEq, Repr

/-- The events of one `detect_at_port()` call as a function of the race's
outcome: on success the caller-visible side effects of lines 124-128 are
the 0.2 s settle sleep followed by the `get_signal_strength` exchange on
the winning port, before the port is returned. -/
def detectEvents : Option Nat → List Ev
  | some p => [Ev.detectCall, Ev.delay02, Ev.signalRead p]
  | none => [Ev.detectCall]

/-- `detect_at_port` in full: the candidate race (threads interleaved by
`sched`) populates `found_port`, and the success epilogue runs
`get_signal_strength` after the settle delay.  Returns the function's
return value and its event trace. -/
def detect_at_port (oks : List Bool) (sched : List Nat) : Option Nat × List Ev :=
  let r := (raceRun oks (raceInit oks.length) sched).slot
  (r, detectEvents r)

/-- A call of `netdiag_log` with its actual-argument list: `none` models
the zero-argument call `netdiag_log()`, which raises
`TypeError: netdiag_log() missing 1 required positional argument`, since
the function's signature is `netdiag_log(interface)`. -/
def netdiag_log_call (iface : Option String) : Except PyErr Unit :=
  match iface with
  | some _ => Except.ok ()
  | none => Except.error (PyErr.typeError "netdiag_log missing 1 required positional argument")

/-- Oracle for the external outcomes inside one `fail_safe` run. -/
structure FsEnv where
  detectInner : Option Nat
  dnsReply : Option String
  deriving DecidableEq, Repr

/-- The reply the DNS-query block effectively sees: if the inner
`detect_at_port()` returned `None`, `serial.Serial(None, ...)` raises
inside the block's `try` and no reply is read. -/
def fsReplyEffective (fs : FsEnv) : Option String :=
  match fs.detectInner with
  | none => none
  | some _ => fs.dnsReply

/-- `fail_safe(at_port)`: the step sequence of the source, in order —
service stops, the `usbnet` profile-switch write (its own `try`), the
re-enumeration wait, the DHCP request, the fresh `detect_at_port()`, the
CGCONTRDP query and resolver write, then the bare `netdiag_log()` call.
The first component is how the call returns to `main` (normally, or by an
uncaught exception); the second is the event trace produced. -/
def fail_safe_run (p : Nat) (fs : FsEnv) : Except PyErr Unit × List Ev :=
  let evs := [Ev.stopServices, Ev.usbnetSwitch p, Ev.waitReenum, Ev.dhcpRequest]
      ++ detectEvents fs.detectInner
      ++ [Ev.dnsQuery, Ev.writeResolv (dnsChoice (fsReplyEffective fs))]
  match netdiag_log_call none with
  | Except.error e => (Except.error e, evs)
  | Except.ok u => (Except.ok u, evs ++ [Ev.netdiagDump none, Ev.vpnStart])

/-- Oracle for the external outcomes of one watchdog invocation of
`main()`: the result of the initial `detect_at_port()`, the three
connectivity checks, the fail-safe tier's fresh `detect_at_port()`, and
the oracle of the `fail_safe` call itself. -/
structure MainEnv where
  detect1 : Option Nat
  conn1 : Bool
  conn2 : Bool
  detectFS : Option Nat
  fsEnv : FsEnv
  conn3 : Bool
  deriving DecidableEq, Repr

/-- Result of one watchdog invocation: a normal return with its trace, or
termination by an uncaught exception with the trace up to that point. -/
inductive RunResult where
  | finished (tr : List Ev)
  | crashed (tr : List Ev) (e : PyErr)
  deriving DecidableEq, Repr

/-- `main()` as a function of the outcome oracle.  `_at_port` mirrors the
binding `at_port = detect_at_port()` of line 364, which the rest of the
function never reads. -/
def main_run (env : MainEnv) : RunResult :=
  let _at_port := env.detect1
  let tr1 := detectEvents env.detect1
  if env.conn1 then
    RunResult.finished (tr1 ++ [Ev.connCheck true, Ev.onlineExit])
  else
    let tr2 := tr1 ++ [Ev.connCheck false, Ev.netdiagDump (some "wwan0"), Ev.restartServices]
    if env.conn2 then
      RunResult.finished (tr2 ++ [Ev.connCheck true, Ev.onlineExit])
    else
      let tr3 := tr2 ++ [Ev.connCheck false] ++ detectEvents env.detectFS
      match env.detectFS with
      | some p =>
        match fail_safe_run p env.fsEnv with
        | (Except.error e, fsEvs) =>
          RunResult.crashed (tr3 ++ Ev.failSafeBegin p :: fsEvs) e
        | (Except.ok _, fsEvs) =>
          let tr4 := tr3 ++ Ev.failSafeBegin p :: fsEvs
          if env.conn3 then RunResult.finished (tr4 ++ [Ev.connCheck true, Ev.onlineExit])
          else RunResult.finished (tr4 ++ [Ev.connCheck false, Ev.rebootLog])
      | none =>
        RunResult.finished (tr3 ++ [Ev.netdiagDump (some "usb0"), Ev.rebootLog])

/-- Event trace of a run. -/
def traceOf : RunResult → List Ev
  | RunResult.finished tr => tr
  | RunResult.crashed tr _ => tr

/-- Whether the run ended in an uncaught exception. -/
def crashes : RunResult → Bool
  | RunResult.finished _ => false
  | RunResult.crashed _ _ => true

/-- The uncaught exception of a run, if any. -/
def runErr : RunResult → Option PyErr
  | RunResult.finished _ => none
  | RunResult.crashed _ e => some e

/-- Recovery-action events: everything the state machine does besides
checking connectivity, reading the port/signal, and exiting. -/
def isRecoveryEv : Ev → Bool
  | Ev.netdiagDump _ => true
  | Ev.restartServices => true
  | Ev.stopServices => true
  | Ev.usbnetSwitch _ => true
  | Ev.waitReenum => true
  | Ev.dhcpRequest => true
  | Ev.dnsQuery => true
  | Ev.writeResolv _ => true
  | Ev.vpnStart => true
  | Ev.failSafeBegin _ => true
  | Ev.rebootLog => true
  | _ => false

/-- Connectivity-check events. -/
def isConnEv : Ev → Bool
  | Ev.connCheck _ => true
  | _ => false

/-- The part of the trace from the first connectivity check onwards. -/
def postGate (r : RunResult) : List Ev :=
  (traceOf r).dropWhile (fun e => !isConnEv e)

/-- The trace of `main` after its first connectivity check, written
directly as a function of the oracle; `mainRest` never mentions
`detect1`. -/
def mainRest (env : MainEnv) : List Ev :=
  if env.conn1 then [Ev.onlineExit]
  else
    [Ev.netdiagDump (some "wwan0"), Ev.restartServices, Ev.connCheck env.conn2] ++
      (if env.conn2 then [Ev.onlineExit]
       else detectEvents env.detectFS ++
         (match env.detectFS with
          | some p => Ev.failSafeBegin p :: (fail_safe_run p env.fsEnv).2
          | none => [Ev.netdiagDump (some "usb0"), Ev.rebootLog]))

/-- The DNS pair a single winning line contributes (`[dns1, dns2]`). -/
def extractDns (line : String) : List String :=
  match lastTwo (lineParts line) with
  | some (d1, d2) => [d1, d2]
  | none => []

/-- Invariant of the serialized probe race: while the flag is clear
nothing has been written, and at most one write ever happens. -/
def RaceInv (s : RaceState) : Prop :=
  (s.flag = false → s.writes = 0 ∧ s.slot = none) ∧ s.writes ≤ 1

/-! ## Sanity checks on concrete inputs -/

example : findNumbers "+QENG: LTE,Online,...,-49,-14,-35,-10" = ["-49", "-14", "-35", "-10"] := by decide

example : get_signal_strength "+QENG: LTE,Online,...,-49,-14,-35,-10"
    = SigOutcome.report ⟨-49, -14, -35, -10⟩ := by decide

example : get_signal_strength "+QENG: 1.5,2,3,4" = SigOutcome.convError := by decide

example : get_signal_strength "no marker -49,-14,-35,-10" = SigOutcome.noMarker := by decide

example : get_signal_strength "+QENG: 5,6" = SigOutcome.tooFew := by decide

example : check_connectivity_parallel
    [(CheckKind.dns, TaskOutcome.failure), (CheckKind.ping, TaskOutcome.success),
     (CheckKind.dns, TaskOutcome.failure), (CheckKind.dns, TaskOutcome.failure),
     (CheckKind.ping, TaskOutcome.success)] = false := by decide

example : check_connectivity_parallel
    [(CheckKind.ping, TaskOutcome.success), (CheckKind.dns, TaskOutcome.exc),
     (CheckKind.dns, TaskOutcome.success)] = true := by decide

example : dnsChoice (some "+CGCONTRDP: 1,5,\"isp.net\",,,,\"10.0.0.1\",\"10.0.0.2\"")
    = DnsChoice.carrier "10.0.0.1" "10.0.0.2" := by decide

example : dnsChoice (some "+CGCONTRDP: 1,5,\"isp.net\",,,,\"\",\"10.0.0.2\"")
    = DnsChoice.fallback := by decide

example : dnsChoice (some "OK\r\n+CGCONTRDP: 1,5,\"a\",,\r\n+CGCONTRDP: 2,5,\"b\",\"1.1.1.1\",\"2.2.2.2\"")
    = DnsChoice.carrier "1.1.1.1" "2.2.2.2" := by decide

example : dnsChoice none = DnsChoice.fallback := by decide

example :
    (raceRun [true, true] (raceInit 2) [0, 1, 0, 1, 0, 1, 0]).slot = some 0 := by decide

example :
    (raceRun [true, true] (raceInit 2) [0, 1, 0, 1, 0, 1, 0, 1]).slot = some 1 ∧
    (raceRun [true, true] (raceInit 2) [0, 1, 0, 1, 0, 1, 0, 1]).writes = 2 := by decide

example :
    (raceRunSerialized [true, true] (raceInit 2) [0, 1, 0, 1, 0, 1, 0, 1]).writes = 1 := by decide

example :
    traceOf (main_run ⟨some 7, true, true, none, ⟨none, none⟩, true⟩)
      = [Ev.detectCall, Ev.delay02, Ev.signalRead 7, Ev.connCheck true, Ev.onlineExit] := by decide

example :
    crashes (main_run ⟨none, false, false, some 3, ⟨some 4, none⟩, true⟩) = true := by decide

example :
    crashes (main_run ⟨none, false, false, none, ⟨none, none⟩, true⟩) = false := by decide

/-! ## Helper lemmas -/

theorem rebootLog_not_mem_detectEvents (r : Option Nat) :
    Ev.rebootLog ∉ detectEvents r := by
  cases r <;> simp [detectEvents]

theorem vpnStart_not_mem_detectEvents (r : Option Nat) :
    Ev.vpnStart ∉ detectEvents r := by
  cases r <;> simp [detectEvents]

theorem failSafeBegin_not_mem_detectEvents (q : Nat) (r : Option Nat) :
    Ev.failSafeBegin q ∉ detectEvents r := by
  cases r <;> simp [detectEvents]

theorem netdiagDump_not_mem_detectEvents (i : Option String) (r : Option Nat) :
    Ev.netdiagDump i ∉ detectEvents r := by
  cases r <;> simp [detectEvents]

theorem detectEvents_no_recovery (r : Option Nat) :
    (detectEvents r).all (fun e => !isRecoveryEv e) = true := by
  cases r <;> simp [detectEvents, isRecoveryEv]

theorem main_trace_shape (env : MainEnv) :
    traceOf (main_run env) = detectEvents env.detect1 ++ Ev.connCheck env.conn1 :: mainRest env := by
  obtain ⟨d1, c1, c2, dfs, fs, c3⟩ := env
  cases c1 <;> cases c2 <;> cases dfs <;>
    simp [main_run, mainRest, traceOf, fail_safe_run, netdiag_log_call]

theorem crashes_main (env : MainEnv) :
    crashes (main_run env) = (!env.conn1 && !env.conn2 && env.detectFS.isSome) := by
  obtain ⟨d1, c1, c2, dfs, fs, c3⟩ := env
  cases c1 <;> cases c2 <;> cases dfs <;>
    simp [main_run, crashes, fail_safe_run, netdiag_log_call]

theorem dropWhile_until_gate (d : Option Nat) (c : Bool) (rest : List Ev) :
    (detectEvents d ++ Ev.connCheck c :: rest).dropWhile (fun e => !isConnEv e)
      = Ev.connCheck c :: rest := by
  cases d <;> simp [detectEvents, List.dropWhile, isConnEv]

theorem raceInv_step (oks : List Bool) (s : RaceState) (t : Nat) (h : RaceInv s) :
    RaceInv (raceStepSerialized oks s t) := by
  obtain ⟨hflag, hle⟩ := h
  unfold raceStepSerialized
  split
  · split
    · exact ⟨hflag, hle⟩
    · split <;> exact ⟨hflag, hle⟩
  · split
    · exact ⟨hflag, hle⟩
    · next hf =>
      refine ⟨by simp, ?_⟩
      have := hflag (by simpa using hf)
      simp [this.1]
  · exact ⟨hflag, hle⟩

theorem raceInv_run (oks : List Bool) (sched : List Nat) (s : RaceState) (h : RaceInv s) :
    RaceInv (raceRunSerialized oks s sched) := by
  induction sched generalizing s with
  | nil => exact h
  | cons t rest ih => exact ih _ (raceInv_step oks s t h)

theorem raceSlot_step (oks : List Bool) (s : RaceState) (t : Nat) (x : Nat)
    (h : RaceInv s) (hx : s.slot = some x) :
    (raceStepSerialized oks s t).slot = some x := by
  have hflag : s.flag = true := by
    by_contra hf
    have := (h.1 (by simpa using hf)).2
    rw [this] at hx
    exact Option.noConfusion hx
  unfold raceStepSerialized
  split
  · simp [hflag, hx]
  · simp [hflag, hx]
  · exact hx

theorem raceSlot_run (oks : List Bool) (sched : List Nat) (s : RaceState) (x : Nat)
    (h : RaceInv s) (hx : s.slot = some x) :
    (raceRunSerialized oks s sched).slot = some x := by
  induction sched generalizing s with
  | nil => exact hx
  | cons t rest ih =>
    exact ih _ (raceInv_step oks s t h) (raceSlot_step oks s t x h hx)

theorem connLoop_spec (l : List (CheckKind × TaskOutcome)) :
    ∀ d p : Bool, (d && p) = false →
      connLoop d p l
        = ((d || hasSuccess CheckKind.dns l) && (p || hasSuccess CheckKind.ping l)) := by
  induction l with
  | nil =>
    intro d p hdp
    simp [connLoop, hasSuccess, hdp]
  | cons e rest ih =>
    intro d p hdp
    obtain ⟨k, o⟩ := e
    cases o with
    | exc =>
      have hrec := ih d p hdp
      simp only [connLoop, hasSuccess] at *
      cases k <;> simpa using hrec
    | success =>
      show (if ((d || (k == CheckKind.dns && true)) && (p || (k == CheckKind.ping && true))) = true
              then true
              else connLoop (d || (k == CheckKind.dns && true))
                            (p || (k == CheckKind.ping && true)) rest) = _
      by_cases hc : ((d || (k == CheckKind.dns && true)) && (p || (k == CheckKind.ping && true))) = true
      · rw [if_pos hc]
        cases k <;>
          simp_all [hasSuccess, show (TaskOutcome.success == TaskOutcome.success) = true from rfl,
            show (CheckKind.dns == CheckKind.ping) = false from rfl,
            show (CheckKind.ping == CheckKind.dns) = false from rfl,
            show (CheckKind.dns == CheckKind.dns) = true from rfl,
            show (CheckKind.ping == CheckKind.ping) = true from rfl]
      · rw [if_neg hc]
        have hcf : ((d || (k == CheckKind.dns && true)) && (p || (k == CheckKind.ping && true))) = false := by
          simpa using hc
        rw [ih _ _ hcf]
        cases k <;>
          simp [hasSuccess, Bool.or_assoc,
            show (TaskOutcome.success == TaskOutcome.success) = true from rfl,
            show (CheckKind.dns == CheckKind.ping) = false from rfl,
            show (CheckKind.ping == CheckKind.dns) = false from rfl,
            show (CheckKind.dns == CheckKind.dns) = true from rfl,
            show (CheckKind.ping == CheckKind.ping) = true from rfl]
    | failure =>
      show (if ((d || (k == CheckKind.dns && false)) && (p || (k == CheckKind.ping && false))) = true
              then true
              else connLoop (d || (k == CheckKind.dns && false))
                            (p || (k == CheckKind.ping && false)) rest) = _
      rw [if_neg (by simp [hdp])]
      have hcf : ((d || (k == CheckKind.dns && false)) && (p || (k == CheckKind.ping && false))) = false := by
        simp [hdp]
      rw [ih _ _ hcf]
      cases k <;>
        simp [hasSuccess,
          show (TaskOutcome.failure == TaskOutcome.success) = false from rfl,
          show (CheckKind.dns == CheckKind.ping) = false from rfl,
          show (CheckKind.ping == CheckKind.dns) = false from rfl]

theorem hasSuccess_iff (k : CheckKind) (l : List (CheckKind × TaskOutcome)) :
    hasSuccess k l = true ↔ ∃ e ∈ l, e = (k, TaskOutcome.success) := by
  induction l with
  | nil => simp [hasSuccess]
  | cons e rest ih =>
    obtain ⟨k', o⟩ := e
    simp only [hasSuccess, Bool.or_eq_true, Bool.and_eq_true, beq_iff_eq, ih,
               List.mem_cons]
    constructor
    · rintro (⟨rfl, rfl⟩ | ⟨e, he, rfl⟩)
      · exact ⟨_, Or.inl rfl, rfl⟩
      · exact ⟨_, Or.inr he, rfl⟩
    · rintro ⟨e, he, rfl⟩
      rcases he with heq | he
      · injection heq with h1 h2
        exact Or.inl ⟨h1.symm, h2.symm⟩
      · exact Or.inr ⟨(k, TaskOutcome.success), he, rfl⟩

theorem dnsFromLines_find (ls : List String) :
    dnsFromLines ls
      = (match ls.find? goodDnsLine with
         | some l => extractDns l
         | none => []) := by
  induction ls with
  | nil => rfl
  | cons line rest ih =>
    by_cases hm : hasSubstring "+CGCONTRDP:".data line.data = true
    · cases hlt : lastTwo (lineParts line) with
      | none =>
        have hg : goodDnsLine line = false := by
          simp [goodDnsLine, hm, hlt]
        rw [List.find?_cons_of_neg _ (by simp [hg])]
        simp only [dnsFromLines, hm, if_true, hlt]
        exact ih
      | some d12 =>
        obtain ⟨d1, d2⟩ := d12
        by_cases hne : (d1 != "" && d2 != "") = true
        · have hg : goodDnsLine line = true := by
            simp [goodDnsLine, hm, hlt, hne]
          rw [List.find?_cons_of_pos _ hg]
          simp only [dnsFromLines, hm, if_true, hlt, hne, extractDns]
        · have hnef : (d1 != "" && d2 != "") = false := by simpa using hne
          have hg : goodDnsLine line = false := by
            simp only [goodDnsLine, hm, hlt, hnef, Bool.true_and]
          rw [List.find?_cons_of_neg _ (by simp [hg])]
          simp only [dnsFromLines, hm, if_true, hlt, hnef, if_false]
          exact ih
    · have hmf : hasSubstring "+CGCONTRDP:".data line.data = false := by simpa using hm
      have hg : goodDnsLine line = false := by
        simp [goodDnsLine, hmf]
      rw [List.find?_cons_of_neg _ (by simp [hg])]
      simp only [dnsFromLines, hmf, if_false]
      exact ih

theorem goodDnsLine_extract (l : String) (h : goodDnsLine l = true) :
    ∃ d1 d2 : String, lastTwo (lineParts l) = some (d1, d2) ∧
      (d1 != "" && d2 != "") = true ∧ extractDns l = [d1, d2] := by
  cases hlt : lastTwo (lineParts l) with
  | none => simp [goodDnsLine, hlt] at h
  | some d12 =>
    obtain ⟨d1, d2⟩ := d12
    refine ⟨d1, d2, rfl, ?_, by simp [extractDns, hlt]⟩
    simp only [goodDnsLine, hlt, Bool.and_eq_true] at h
    simp [h.2.1, h.2.2]

/-! ## Claim theorems -/

/-- C1: the claim states that no internal error aborts the orchestrator's
traversal and that every sub-step of `fail_safe` is caught at its own
boundary.  The code violates this: `fail_safe` unconditionally reaches the
zero-argument call `netdiag_log()` although `netdiag_log` requires its
`interface` argument, so every run that enters the fail-safe tier dies
with an uncaught `TypeError` — the final recheck, the OpenVPN restart and
the terminal reboot phase are never reached. -/
theorem C1_failsafe_uncaught_typeerror (env : MainEnv) (p : Nat)
    (h1 : env.conn1 = false) (h2 : env.conn2 = false) (h3 : env.detectFS = some p) :
    crashes (main_run env) = true ∧
    runErr (main_run env)
      = some (PyErr.typeError "netdiag_log missing 1 required positional argument") ∧
    Ev.rebootLog ∉ traceOf (main_run env) ∧
    Ev.vpnStart ∉ traceOf (main_run env) := by
  obtain ⟨d1, c1, c2, dfs, fs, c3⟩ := env
  simp only at h1 h2 h3
  subst h1; subst h2; subst h3
  refine ⟨by simp [main_run, crashes, fail_safe_run, netdiag_log_call],
          by simp [main_run, runErr, fail_safe_run, netdiag_log_call], ?_, ?_⟩ <;>
    simp [main_run, traceOf, fail_safe_run, netdiag_log_call,
          rebootLog_not_mem_detectEvents, vpnStart_not_mem_detectEvents]

/-- Closed instance of `C1_failsafe_uncaught_typeerror` at a concrete
oracle: both rechecks fail and the fail-safe tier finds port 0. -/
theorem C1_failsafe_uncaught_typeerror_witness :
    crashes (main_run ⟨none, false, false, some 0, ⟨none, none⟩, false⟩) = true ∧
    runErr (main_run ⟨none, false, false, some 0, ⟨none, none⟩, false⟩)
      = some (PyErr.typeError "netdiag_log missing 1 required positional argument") ∧
    Ev.rebootLog ∉ traceOf (main_run ⟨none, false, false, some 0, ⟨none, none⟩, false⟩) ∧
    Ev.vpnStart ∉ traceOf (main_run ⟨none, false, false, some 0, ⟨none, none⟩, false⟩) :=
  C1_failsafe_uncaught_typeerror ⟨none, false, false, some 0, ⟨none, none⟩, false⟩ 0 rfl rfl rfl

/-- C3: `check_connectivity_parallel` returns true if and only if the
completion-ordered task results contain at least one DNS success and at
least one ping success — in particular, if every DNS host fails while a
ping host succeeds, it returns false. -/
theorem C3_connectivity_iff (l : List (CheckKind × TaskOutcome)) :
    check_connectivity_parallel l = true ↔
      ((∃ e ∈ l, e = (CheckKind.dns, TaskOutcome.success)) ∧
       (∃ e ∈ l, e = (CheckKind.ping, TaskOutcome.success))) := by
  rw [check_connectivity_parallel, connLoop_spec l false false rfl]
  simp only [Bool.false_or, Bool.and_eq_true]
  rw [hasSuccess_iff, hasSuccess_iff]

/-- C4 counterexample: the reply `"+QENG: 1.5,2,3,4"` contains the marker
and exactly four numeric tokens, yet `get_signal_strength` produces no
report for it: the token `1.5` sits in the RSRP position and `int("1.5")`
raises `ValueError` (caught by the function's own `except`), so the claim
that every marker-bearing reply with at least four numeric tokens is
parsed into a report is false. -/
theorem C4_decimal_token_counterexample :
    hasSubstring "+QENG:".data "+QENG: 1.5,2,3,4".data = true ∧
    (findNumbers "+QENG: 1.5,2,3,4").length = 4 ∧
    get_signal_strength "+QENG: 1.5,2,3,4" = SigOutcome.convError := by
  decide

/-- C4 amended: a reply without the marker is a non-fatal `noMarker`
outcome; a marker-bearing reply with fewer than four numeric tokens is a
non-fatal `tooFew` outcome; every other reply is parsed from exactly the
last four numeric tokens, RSRP/RSRQ/RSSI as Python ints and SINR as a
Python float, provided the three integer positions convert — when one of
them has a fractional part the `ValueError` is caught inside the function
(`convError`, still non-fatal). -/
theorem C4_parse_characterization :
    (∀ s : String, hasSubstring "+QENG:".data s.data = false →
        get_signal_strength s = SigOutcome.noMarker) ∧
    (∀ s : String, hasSubstring "+QENG:".data s.data = true →
        (findNumbers s).length < 4 → get_signal_strength s = SigOutcome.tooFew) ∧
    (∀ (s a b c d : String) (x y z : Int),
        hasSubstring "+QENG:".data s.data = true →
        (findNumbers s).drop ((findNumbers s).length - 4) = [a, b, c, d] →
        pyIntOfToken a = some x → pyIntOfToken b = some y → pyIntOfToken c = some z →
        get_signal_strength s = SigOutcome.report ⟨x, y, z, pyRatOfToken d⟩) ∧
    (∀ s a b c d : String,
        hasSubstring "+QENG:".data s.data = true →
        (findNumbers s).drop ((findNumbers s).length - 4) = [a, b, c, d] →
        (pyIntOfToken a = none ∨ pyIntOfToken b = none ∨ pyIntOfToken c = none) →
        get_signal_strength s = SigOutcome.convError) := by
  have hlen4 : ∀ (s : String) (a b c d : String),
      (findNumbers s).drop ((findNumbers s).length - 4) = [a, b, c, d] →
      ¬((findNumbers s).length < 4) := by
    intro s a b c d hdrop hl
    have hd := congrArg List.length hdrop
    simp only [List.length_drop, List.length_cons, List.length_nil] at hd
    omega
  refine ⟨?_, ?_, ?_, ?_⟩
  · intro s hm
    simp [get_signal_strength, hm]
  · intro s hm hl
    simp [get_signal_strength, hm, hl]
  · intro s a b c d x y z hm hdrop hx hy hz
    simp only [get_signal_strength, hm, if_true, if_neg (hlen4 s a b c d hdrop), hdrop]
    simp [parseLastFour, hx, hy, hz]
  · intro s a b c d hm hdrop hnone
    simp only [get_signal_strength, hm, if_true, if_neg (hlen4 s a b c d hdrop), hdrop]
    rcases hnone with h | h | h <;> simp [parseLastFour, h]

/-- Closed instance of `C4_parse_characterization` at the spec's telemetry
scenario reply: RSRP −49, RSRQ −14, RSSI −35, SINR −10.0. -/
theorem C4_parse_characterization_witness :
    get_signal_strength "+QENG: LTE,Online,...,-49,-14,-35,-10"
      = SigOutcome.report ⟨-49, -14, -35, -10⟩ := by
  have h := C4_parse_characterization.2.2.1 "+QENG: LTE,Online,...,-49,-14,-35,-10"
    "-49" "-14" "-35" "-10" (-49) (-14) (-35)
    (by decide) (by decide) (by decide) (by decide) (by decide)
  have hr : pyRatOfToken "-10" = (-10 : ℚ) := by decide
  rw [hr] at h
  exact h

/-- C2 counterexample: under the actual thread-interleaved semantics of
`test_port`, the schedule in which both responsive candidates pass the
inner `found_flag` check before either sets it makes both threads write
`found_port`: after seven steps the slot holds port 0, one step later it
has been overwritten with port 1 and two writes have happened — so the
slot is not write-once for every interleaving, as the claim states. -/
theorem C2_slot_overwrite_counterexample :
    (raceRun [true, true] (raceInit 2) [0, 1, 0, 1, 0, 1, 0]).slot = some 0 ∧
    (raceRun [true, true] (raceInit 2) [0, 1, 0, 1, 0, 1, 0, 1]).slot = some 1 ∧
    (raceRun [true, true] (raceInit 2) [0, 1, 0, 1, 0, 1, 0, 1]).writes = 2 := by
  decide

/-- C2 amended: when each thread's guard-and-claim section (the inner
flag check, the flag set and the slot write) executes without interleaving
— the serialized compare-and-set the spec's design notes call for — the
slot is write-once for every schedule: at most one write ever happens, and
once a port is claimed no further steps change it. -/
theorem C2_write_once_serialized (oks : List Bool) (n : Nat) (sched : List Nat) :
    (raceRunSerialized oks (raceInit n) sched).writes ≤ 1 ∧
    ∀ (sched2 : List Nat) (x : Nat),
      (raceRunSerialized oks (raceInit n) sched).slot = some x →
      (raceRunSerialized oks (raceInit n) (sched ++ sched2)).slot = some x := by
  have hinit : RaceInv (raceInit n) := ⟨fun _ => ⟨rfl, rfl⟩, Nat.zero_le 1⟩
  have hrun := raceInv_run oks sched (raceInit n) hinit
  refine ⟨hrun.2, ?_⟩
  intro sched2 x hx
  unfold raceRunSerialized
  rw [List.foldl_append]
  exact raceSlot_run oks sched2 _ x hrun hx

/-- Closed instance of `C2_write_once_serialized`: one responsive
candidate claims the slot and the claim persists under further steps. -/
theorem C2_write_once_serialized_witness :
    (raceRunSerialized [true] (raceInit 1) ([0, 0] ++ [0])).slot = some 0 :=
  (C2_write_once_serialized [true] 1 [0, 0]).2 [0] 0 (by decide)

/-- C5: `fail_safe` falls back to the fixed Google DNS pair exactly when
no line of the CGCONTRDP reply both carries the marker and has two
non-empty trailing comma-split, quote-stripped fields; otherwise the
first such line's last two fields become the carrier DNS pair — as in the
spec's scenario reply. -/
theorem C5_dns_selection :
    (∀ r : String,
       (dnsChoice (some r) = DnsChoice.fallback ↔
         ∀ line ∈ splitLinesPy r, goodDnsLine line = false) ∧
       (∀ l d1 d2 : String,
         (splitLinesPy r).find? goodDnsLine = some l →
         lastTwo (lineParts l) = some (d1, d2) →
         dnsChoice (some r) = DnsChoice.carrier d1 d2)) ∧
    dnsChoice (some "+CGCONTRDP: 1,5,\"isp.net\",,,,\"10.0.0.1\",\"10.0.0.2\"")
      = DnsChoice.carrier "10.0.0.1" "10.0.0.2" := by
  refine ⟨fun r => ⟨?_, ?_⟩, by decide⟩
  · simp only [dnsChoice, fail_safe_dns, dnsFromLines_find]
    cases hf : (splitLinesPy r).find? goodDnsLine with
    | none =>
      constructor
      · intro _ line hline
        have h := List.find?_eq_none.mp hf line hline
        simpa using h
      · intro _
        rfl
    | some l =>
      have hg : goodDnsLine l = true := List.find?_some hf
      obtain ⟨d1, d2, hlt, hne, hext⟩ := goodDnsLine_extract l hg
      dsimp only
      rw [hext]
      constructor
      · intro hcon
        exact DnsChoice.noConfusion hcon
      · intro hall
        have hmem := List.mem_of_find?_eq_some hf
        have hfalse := hall l hmem
        rw [hg] at hfalse
        exact Bool.noConfusion hfalse
  · intro l d1 d2 hf hlt
    have hg : goodDnsLine l = true := List.find?_some hf
    obtain ⟨e1, e2, hlt', hne, hext⟩ := goodDnsLine_extract l hg
    rw [hlt] at hlt'
    injection hlt' with hpair
    injection hpair with h1 h2
    subst h1
    subst h2
    simp only [dnsChoice, fail_safe_dns, dnsFromLines_find, hf, hext]

/-- Closed instance of `C5_dns_selection` at the spec's scenario reply,
with the winning line and its two trailing fields made explicit. -/
theorem C5_dns_selection_witness :
    dnsChoice (some "+CGCONTRDP: 1,5,\"isp.net\",,,,\"10.0.0.1\",\"10.0.0.2\"")
      = DnsChoice.carrier "10.0.0.1" "10.0.0.2" :=
  (C5_dns_selection.1 "+CGCONTRDP: 1,5,\"isp.net\",,,,\"10.0.0.1\",\"10.0.0.2\"").2
    "+CGCONTRDP: 1,5,\"isp.net\",,,,\"10.0.0.1\",\"10.0.0.2\"" "10.0.0.1" "10.0.0.2"
    (by decide) (by decide)

/-- C6: the orchestrator invokes `fail_safe` only when the fail-safe
tier's own `detect_at_port` call returned a port, and when that call
returns `None` it instead dumps diagnostics for the fallback interface
`usb0` and reaches the terminal reboot phase. -/
theorem C6_failsafe_gate (env : MainEnv) :
    (∀ p : Nat, Ev.failSafeBegin p ∈ traceOf (main_run env) → env.detectFS = some p) ∧
    (env.conn1 = false → env.conn2 = false → env.detectFS = none →
      Ev.netdiagDump (some "usb0") ∈ traceOf (main_run env) ∧
      Ev.rebootLog ∈ traceOf (main_run env) ∧
      ∀ q : Nat, Ev.failSafeBegin q ∉ traceOf (main_run env)) := by
  obtain ⟨d1, c1, c2, dfs, fs, c3⟩ := env
  cases c1 <;> cases c2 <;> cases dfs <;>
    simp [main_run, traceOf, fail_safe_run, netdiag_log_call,
          failSafeBegin_not_mem_detectEvents]

/-- Closed instance of `C6_failsafe_gate`: with no port at the fail-safe
gate, diagnostics are dumped for `usb0` and the reboot phase is reached. -/
theorem C6_failsafe_gate_witness :
    Ev.netdiagDump (some "usb0") ∈ traceOf (main_run ⟨none, false, false, none, ⟨none, none⟩, false⟩) ∧
    Ev.rebootLog ∈ traceOf (main_run ⟨none, false, false, none, ⟨none, none⟩, false⟩) ∧
    ∀ q : Nat, Ev.failSafeBegin q ∉ traceOf (main_run ⟨none, false, false, none, ⟨none, none⟩, false⟩) :=
  (C6_failsafe_gate ⟨none, false, false, none, ⟨none, none⟩, false⟩).2 rfl rfl rfl

/-- C7 counterexample: at an oracle where the initial `detect_at_port`
finds port 0 and the first connectivity check succeeds, the first event of
the invocation is the port-detection call — not the connectivity gate —
so the claim that every traversal's first action is
`ConnectivityProbe.Check` is false. -/
theorem C7_first_action_counterexample :
    (traceOf (main_run ⟨some 0, true, true, none, ⟨none, none⟩, true⟩)).head?
        = some Ev.detectCall ∧
    Ev.detectCall ≠ Ev.connCheck true ∧ Ev.detectCall ≠ Ev.connCheck false ∧
    Ev.signalRead 0 ∈ (traceOf (main_run ⟨some 0, true, true, none, ⟨none, none⟩, true⟩)).take 3 := by
  decide

/-- C7 amended: every invocation first runs `detect_at_port` (whose events
include a signal read when a port is found), immediately followed by the
connectivity gate; no recovery action precedes the gate, and the whole
remainder of the traversal follows the gate. -/
theorem C7_gate_after_initial_detect (env : MainEnv) :
    traceOf (main_run env)
        = detectEvents env.detect1 ++ Ev.connCheck env.conn1 :: mainRest env ∧
    (detectEvents env.detect1).all (fun e => !isRecoveryEv e) = true :=
  ⟨main_trace_shape env, detectEvents_no_recovery env.detect1⟩

/-- C8: for every serial-exchange outcome, `get_signal_strength` returns
`None` to its caller and lets no exception escape; a successfully parsed
report is only emitted to the log. -/
theorem C8_signal_returns_none (env : Option String) :
    (get_signal_strength_exec env).1 = Except.ok none ∧
    (∀ (resp : String) (r : SignalReport), env = some resp →
      get_signal_strength resp = SigOutcome.report r →
      SigLog.quality r ∈ (get_signal_strength_exec env).2) := by
  constructor
  · cases env with
    | none => rfl
    | some resp => cases h : get_signal_strength resp <;> simp [get_signal_strength_exec, h]
  · intro resp r he hr
    subst he
    simp [get_signal_strength_exec, hr]

/-- Closed instance of `C8_signal_returns_none` at the spec's telemetry
scenario reply. -/
theorem C8_signal_returns_none_witness :
    (get_signal_strength_exec (some "+QENG: LTE,Online,...,-49,-14,-35,-10")).1
        = Except.ok none ∧
    SigLog.quality ⟨-49, -14, -35, -10⟩
        ∈ (get_signal_strength_exec (some "+QENG: LTE,Online,...,-49,-14,-35,-10")).2 :=
  ⟨(C8_signal_returns_none (some "+QENG: LTE,Online,...,-49,-14,-35,-10")).1,
   (C8_signal_returns_none (some "+QENG: LTE,Online,...,-49,-14,-35,-10")).2
     "+QENG: LTE,Online,...,-49,-14,-35,-10" ⟨-49, -14, -35, -10⟩ rfl (by decide)⟩

/-- C9: whenever `detect_at_port` returns a port, its trace is exactly the
detection call followed by the 0.2 s settle delay and then the
`get_signal_strength` exchange on that same port — detection on success is
never a pure discovery operation. -/
theorem C9_detect_reads_signal (oks : List Bool) (sched : List Nat) (p : Nat)
    (h : (detect_at_port oks sched).1 = some p) :
    (detect_at_port oks sched).2 = [Ev.detectCall, Ev.delay02, Ev.signalRead p] := by
  simp only [detect_at_port] at h ⊢
  rw [h]
  rfl

/-- Closed instance of `C9_detect_reads_signal`: one responsive candidate
scheduled to completion. -/
theorem C9_detect_reads_signal_witness :
    (detect_at_port [true] [0, 0, 0, 0]).2
        = [Ev.detectCall, Ev.delay02, Ev.signalRead 0] :=
  C9_detect_reads_signal [true] [0, 0, 0, 0] 0 (by decide)

/-- C10: the value returned by the initial `detect_at_port` call of `main`
is never read again — for any two outcomes of that call, the traversal
from the connectivity gate onwards is identical, as is whether the run
crashes. -/
theorem C10_initial_detect_unused (env : MainEnv) (a b : Option Nat) :
    postGate (main_run { env with detect1 := a })
        = postGate (main_run { env with detect1 := b }) ∧
    crashes (main_run { env with detect1 := a })
        = crashes (main_run { env with detect1 := b }) := by
  constructor
  · have ha := main_trace_shape { env with detect1 := a }
    have hb := main_trace_shape { env with detect1 := b }
    simp only [postGate, ha, hb]
    rw [dropWhile_until_gate, dropWhile_until_gate]
    simp [mainRest]
  · rw [crashes_main, crashes_main]

end CheckStatus
